import Mathlib

/-!
Verification of the tape-management UI panels (DriveStatus.js, RunningTasks,
DriveInfoPanel) of the proxmox-backup web console, as a shallow embedding.

The embedding translates the JavaScript controller functions into pure Lean
functions.  JavaScript exceptions are modelled with `Except String`; UI side
effects (masking a grid, reloading a store, creating task windows) are
modelled as explicit effect lists; nullable strings are `Option String`.
-/

set_option linter.unusedVariables false

/-- JavaScript truthiness of a nullable string value (`!!v`): true iff the
value is non-null and non-empty. -/
def jsTruthy : Option String → Bool
  | Option.none => false
  | Option.some s => !(s == "")

/-- Embedding of JavaScript `String.prototype.startsWith`. -/
def jsStartsWith (s pre : String) : Bool :=
  List.isPrefixOf pre.data s.data

/-- Embedding of JavaScript `Array.prototype.indexOf` on string arrays:
returns the index of the first occurrence, or -1 when absent. -/
def jsIndexOf (l : List String) (target : String) : Int :=
  match l with
  | [] => -1
  | x :: xs =>
    if x = target then 0
    else
      let r := jsIndexOf xs target
      if r = -1 then -1 else r + 1

/-- Whitespace test for the regex class backslash-s (the common ASCII cases;
the unicode space characters the class also matches are immaterial here). -/
def isWsChar (c : Char) : Bool :=
  c == ' ' || c == '\t' || c == '\n' || c == '\r' || c == '\x0b' || c == '\x0c'

/-- Worker for `jsSplitWs`: `skipping` records that a whitespace run is being
consumed, `acc` holds the current segment in reverse. -/
def jsSplitWsGo : List Char → Bool → List Char → List String
  | [], skipping, acc =>
    if skipping then [""] else [String.mk acc.reverse]
  | c :: cs, skipping, acc =>
    if isWsChar c then
      if skipping then jsSplitWsGo cs true []
      else String.mk acc.reverse :: jsSplitWsGo cs true []
    else jsSplitWsGo cs false (c :: acc)

/-- Embedding of the JavaScript split on the regex in `onLoad`
(alternation of two identical whitespace-run branches, so simply a split on
maximal whitespace runs, keeping empty boundary segments as JS does). -/
def jsSplitWs (s : String) : List String :=
  jsSplitWsGo s.data false []

/-- A record of the shared device-list store (the tape store): each device
exposes its `name` identity and a nullable task-identifier `state`. -/
structure DeviceRecord where
  name : String
  state : Option String
  deriving DecidableEq, Repr

/-- A device-list snapshot as published by the shared poller. -/
abbrev Snapshot := List DeviceRecord

/-- Embedding of `store.findRecord('name', drive, 0, false, true, true)`:
first record whose name matches exactly and case-sensitively, or null. -/
def findRecord (store : Snapshot) (drive : String) : Option DeviceRecord :=
  store.find? (fun r => r.name == drive)

namespace RunningTasks

/-- Embedding of the `render_status` renderer of PBS.RunningTasks: picks a
glyph class from the terminal task status string and wraps it in an icon
element. -/
def render_status (value : String) : String :=
  let cls :=
    if value = "OK" then "check-circle good"
    else if jsStartsWith value "WARNINGS:" then "exclamation-circle warning"
    else if value = "unknown" then "question-circle faded"
    else "times-circle critical"
  "<i class=\"fa fa-" ++ cls ++ "\"></i>"

end RunningTasks

namespace DriveInfoPanel

/-- Side effects of `DriveInfoPanel.initComponent` after the drive check. -/
inductive InitAction where
  | subscribeDeviceList
  | immediateUpdate
  | callParent
  deriving DecidableEq, Repr

/-- Embedding of `PBS.TapeManagement.DriveInfoPanel.initComponent`: throws
"no drive given" when the configured drive is falsy, before the tape store
is queried or subscribed; otherwise subscribes to the shared store load
event, updates immediately when the store is already loaded, and calls the
parent initializer. -/
def initComponent (drive : Option String) (storeLoaded : Bool) :
    Except String (List InitAction) :=
  if !jsTruthy drive then Except.error "no drive given"
  else
    Except.ok
      ([InitAction.subscribeDeviceList]
        ++ (if storeLoaded then [InitAction.immediateUpdate] else [])
        ++ [InitAction.callParent])

end DriveInfoPanel

namespace DriveStatus

/-- The gating flags held in the panel view model. -/
structure Flags where
  online : Bool
  busy : Bool
  deriving DecidableEq, Repr

/-- One toolbar button of the DriveStatus panel: its label and the bound
formula computing its `disabled` property from the view-model flags. -/
structure ToolbarButton where
  text : String
  disabledBind : Flags → Bool

/-- Embedding of the `tbar` configuration: each button with its `disabled`
binding (`'{busy}'` for Reload, `'{!online}'` for the others); the visual
separator item is not a button and is omitted. -/
def tbar : List ToolbarButton :=
  [ { text := "Reload", disabledBind := fun f => f.busy },
    { text := "Label Media", disabledBind := fun f => !f.online },
    { text := "Eject", disabledBind := fun f => !f.online },
    { text := "Catalog", disabledBind := fun f => !f.online },
    { text := "Read Label", disabledBind := fun f => !f.online },
    { text := "Volume Statistics", disabledBind := fun f => !f.online },
    { text := "Cartridge Memory", disabledBind := fun f => !f.online } ]

/-- A button is enabled iff its bound `disabled` formula evaluates false. -/
def enabledAt (b : ToolbarButton) (f : Flags) : Bool :=
  !(b.disabledBind f)

/-- The six online-gated action button labels. -/
def onlineGatedNames : List String :=
  ["Label Media", "Eject", "Catalog", "Read Label",
   "Volume Statistics", "Cartridge Memory"]

/-- The DriveStatus panel view model: the two gating flags plus the
one-shot `loaded` latch. -/
structure VMState where
  online : Bool
  busy : Bool
  loaded : Bool
  deriving DecidableEq, Repr

/-- Initial view-model data of the panel (`online: false, busy: true,
loaded: false`). -/
def initialVM : VMState :=
  { online := false, busy := true, loaded := false }

/-- UI side effects of the snapshot handler: masking or unmasking the
status grid (the timeout in the source only defers the call past the first
render pass; the effect itself is what is modelled) and reloading the
status-grid store. -/
inductive UIEffect where
  | maskGrid
  | unmaskGrid
  | reloadStatusGrid
  deriving DecidableEq, Repr

/-- Embedding of the controller function `onStateLoad`: looks the panel
drive up in the device-list snapshot (when the record is missing,
`findRecord` returns null and the following `driveRecord.data.state` access
throws a TypeError, modelled as `Except.error`), recomputes `busy`
unconditionally, and while the `loaded` latch is unset either masks the
status grid (busy) or unmasks it, reloads it and sets the latch (idle). -/
def onStateLoad (drive : String) (store : Snapshot) (vm : VMState) :
    Except String (VMState × List UIEffect) :=
  match findRecord store drive with
  | Option.none => Except.error "TypeError: driveRecord is null"
  | Option.some driveRecord =>
    let busy := jsTruthy driveRecord.state
    let vm1 : VMState := { vm with busy := busy }
    if !vm1.loaded then
      if busy then Except.ok (vm1, [UIEffect.maskGrid])
      else
        Except.ok ({ vm1 with loaded := true },
          [UIEffect.unmaskGrid, UIEffect.reloadStatusGrid])
    else Except.ok (vm1, [])

/-- Modelled from the spec: the cartridge/media sub-listing grid (looked up
under the reference `cartridgegrid` by `onLoad`) is not among the excerpted
source files; per the spec it is a cached media sub-listing whose store is
cleared wholesale. -/
structure CartridgeStore where
  items : List String
  deriving DecidableEq, Repr

/-- Embedding of `getStore().removeAll()` on the cartridge grid. -/
def CartridgeStore.removeAll (_ : CartridgeStore) : CartridgeStore :=
  { items := [] }

/-- The panel state visible to `onLoad`: the view model plus the cartridge
grid store. -/
structure PanelData where
  vm : VMState
  cartridgegrid : CartridgeStore
  deriving DecidableEq, Repr

/-- Embedding of the controller function `onLoad`: tokenizes the status
field of the status grid snapshot (null coalesced to ""), derives `online`
from the presence of the ONLINE token (indexOf different from -1), stores
it in the view model, and when not online clears the cartridge grid
store. -/
def onLoad (status : Option String) (p : PanelData) : PanelData :=
  let statusFlags := jsSplitWs (status.getD "")
  let online : Bool := jsIndexOf statusFlags "ONLINE" != -1
  let p1 : PanelData := { p with vm := { p.vm with online := online } }
  if !online then { p1 with cartridgegrid := p1.cartridgegrid.removeAll }
  else p1

/-- Folding `onStateLoad` over a sequence of device-list snapshot events
observed by one panel instance, collecting the effect list each event
produced. -/
def processEvents (drive : String) (vm : VMState) :
    List Snapshot → Except String (VMState × List (List UIEffect))
  | [] => Except.ok (vm, [])
  | ev :: evs =>
    match onStateLoad drive ev vm with
    | Except.error e => Except.error e
    | Except.ok (vm1, effs) =>
      match processEvents drive vm1 evs with
      | Except.error e => Except.error e
      | Except.ok (vmF, rest) => Except.ok (vmF, effs :: rest)

/-- The busy flag a snapshot event derives for the drive (false when the
record is absent; the claims quantify over events with the record
present). -/
def eventBusy (drive : String) (ev : Snapshot) : Bool :=
  match findRecord ev drive with
  | Option.some r => jsTruthy r.state
  | Option.none => false

/-- An event is idle when its derived busy flag is false. -/
def eventIdle (drive : String) (ev : Snapshot) : Bool :=
  !eventBusy drive ev

/-- Whether the effect list of one event contains the automatic
unmask-and-reload of the status detail region. -/
def firedReload (effs : List UIEffect) : Bool :=
  effs.contains UIEffect.reloadStatusGrid

/-- Spec-side definition transcribing the claim: the firing pattern that is
true exactly at the first idle event of the sequence and false everywhere
else (all false when every event is busy). -/
def specFirstIdleMarks (drive : String) : List Snapshot → List Bool
  | [] => []
  | ev :: evs =>
    if eventBusy drive ev then false :: specFirstIdleMarks drive evs
    else true :: evs.map (fun _ => false)

/-- The example snapshot sequence of the claim: busy, busy, idle, busy,
idle. -/
def exampleBusyIdleEvents : List Snapshot :=
  [[{ name := "drv0", state := Option.some "UPID:a" }],
   [{ name := "drv0", state := Option.some "UPID:b" }],
   [{ name := "drv0", state := Option.none }],
   [{ name := "drv0", state := Option.some "UPID:c" }],
   [{ name := "drv0", state := Option.none }]]

/-- The backend response to a successful drive command: `result.data`
holds the payload (for task commands, the returned task identifier). -/
structure CommandResponse where
  data : String
  deriving DecidableEq, Repr

/-- One completion-observer action of a supervising task window
(`taskDone`). -/
inductive TaskAction where
  | reloadStatusGrid
  deriving DecidableEq, Repr

/-- UI effects of a drive command invocation: creating a TaskProgress or
TaskViewer window supervising a task identifier (its `taskDone` actions run
once per completion event of that task), or showing a plain result
window. -/
inductive CommandEffect where
  | createTaskProgress (upid : String) (taskDone : List TaskAction)
  | createTaskViewer (upid : String) (taskDone : List TaskAction)
  | showWindow (w : String)
  deriving DecidableEq, Repr

/-- Whether a command effect creates (and supervises) a task handle. -/
def CommandEffect.createsTask : CommandEffect → Bool
  | CommandEffect.createTaskProgress _ _ => true
  | CommandEffect.createTaskViewer _ _ => true
  | CommandEffect.showWindow _ => false

/-- How many status-grid reloads one completion event of the supervised
task triggers (zero for effects that supervise no task). -/
def CommandEffect.reloadsPerCompletion : CommandEffect → Nat
  | CommandEffect.createTaskProgress _ td => td.count TaskAction.reloadStatusGrid
  | CommandEffect.createTaskViewer _ td => td.count TaskAction.reloadStatusGrid
  | CommandEffect.showWindow _ => 0

/-- Embedding of `PBS.Utils.driveCommand` as seen from this panel: a failed
request surfaces an error message and runs no success callback (no effects
here); a successful one runs the success callback on the response. -/
def driveCommand (result : Option CommandResponse)
    (success : CommandResponse → List CommandEffect) : List CommandEffect :=
  match result with
  | Option.none => []
  | Option.some resp => success resp

/-- Embedding of the `ejectMedia` handler: issues eject-media; on success
creates a TaskProgress window on the returned task identifier
(`response.result.data`) whose taskDone callback reloads the status
grid. -/
def ejectMedia (result : Option CommandResponse) : List CommandEffect :=
  driveCommand result (fun response =>
    [CommandEffect.createTaskProgress response.data [TaskAction.reloadStatusGrid]])

/-- Embedding of the `readLabel` handler: issues read-label; on success
shows the media label window. -/
def readLabel (result : Option CommandResponse) : List CommandEffect :=
  driveCommand result (fun _ =>
    [CommandEffect.showWindow "MediaLabelWindow"])

end DriveStatus

/-! ## Claim theorems -/

/-- Helper: `jsTruthy` holds exactly on non-null, non-empty strings. -/
theorem jsTruthy_eq_true_iff (o : Option String) :
    jsTruthy o = true ↔ ∃ s, o = Option.some s ∧ s ≠ "" := by
  cases o with
  | none => simp [jsTruthy]
  | some s =>
    simp only [jsTruthy, Bool.not_eq_true']
    constructor
    · intro h
      exact ⟨s, rfl, by simpa using h⟩
    · rintro ⟨t, ht, hne⟩
      cases ht
      simpa using hne

/-- C9: the running-tasks status renderer maps "OK" to the success glyph,
any string beginning with "WARNINGS:" to the warning glyph, "unknown" to
the faded question glyph, and every other string to the critical glyph. -/
theorem c9_render_status_glyphs (v : String) :
    (v = "OK" → RunningTasks.render_status v = "<i class=\"fa fa-check-circle good\"></i>")
    ∧ (jsStartsWith v "WARNINGS:" = true →
        RunningTasks.render_status v = "<i class=\"fa fa-exclamation-circle warning\"></i>")
    ∧ (v = "unknown" → RunningTasks.render_status v = "<i class=\"fa fa-question-circle faded\"></i>")
    ∧ (v ≠ "OK" → jsStartsWith v "WARNINGS:" = false → v ≠ "unknown" →
        RunningTasks.render_status v = "<i class=\"fa fa-times-circle critical\"></i>") := by
  refine ⟨?_, ?_, ?_, ?_⟩
  · rintro rfl; rfl
  · intro h
    have h1 : v ≠ "OK" := by rintro rfl; exact absurd h (by decide)
    simp [RunningTasks.render_status, h, h1]
  · rintro rfl; rfl
  · intro h1 h2 h3
    simp [RunningTasks.render_status, h1, h2, h3]

/-- Witness for C9: evaluates the renderer on one input of each glyph
class. -/
theorem c9_render_status_glyphs_witness :
    RunningTasks.render_status "OK" = "<i class=\"fa fa-check-circle good\"></i>"
    ∧ RunningTasks.render_status "WARNINGS: 3" = "<i class=\"fa fa-exclamation-circle warning\"></i>"
    ∧ RunningTasks.render_status "unknown" = "<i class=\"fa fa-question-circle faded\"></i>"
    ∧ RunningTasks.render_status "connection error" = "<i class=\"fa fa-times-circle critical\"></i>" :=
  ⟨(c9_render_status_glyphs "OK").1 rfl,
   (c9_render_status_glyphs "WARNINGS: 3").2.1 (by decide),
   (c9_render_status_glyphs "unknown").2.2.1 rfl,
   (c9_render_status_glyphs "connection error").2.2.2 (by decide) (by decide) (by decide)⟩

/-- C10: constructing the drive information panel without a configured
drive throws "no drive given" before any subscription action; with a
(truthy) drive configured it never throws and does subscribe to the shared
device-list store. -/
theorem c10_initComponent_drive_check (drive : Option String) (storeLoaded : Bool) :
    (jsTruthy drive = false →
      DriveInfoPanel.initComponent drive storeLoaded = Except.error "no drive given")
    ∧ (jsTruthy drive = true →
      ∃ acts, DriveInfoPanel.initComponent drive storeLoaded = Except.ok acts
        ∧ DriveInfoPanel.InitAction.subscribeDeviceList ∈ acts) := by
  constructor
  · intro h
    simp [DriveInfoPanel.initComponent, h]
  · intro h
    refine ⟨[DriveInfoPanel.InitAction.subscribeDeviceList]
        ++ (if storeLoaded then [DriveInfoPanel.InitAction.immediateUpdate] else [])
        ++ [DriveInfoPanel.InitAction.callParent], ?_, ?_⟩
    · simp [DriveInfoPanel.initComponent, h]
    · simp

/-- Witness for C10: no drive throws; drive "drv0" succeeds. -/
theorem c10_initComponent_drive_check_witness :
    DriveInfoPanel.initComponent Option.none false = Except.error "no drive given"
    ∧ ∃ acts, DriveInfoPanel.initComponent (Option.some "drv0") false = Except.ok acts
        ∧ DriveInfoPanel.InitAction.subscribeDeviceList ∈ acts :=
  ⟨(c10_initComponent_drive_check Option.none false).1 (by decide),
   (c10_initComponent_drive_check (Option.some "drv0") false).2 (by decide)⟩

/-- C7: every button of the toolbar is gated purely by the flags: the six
online-gated actions are enabled iff `online`, Reload is enabled iff not
`busy`, and with `online = false` all six actions are disabled regardless
of `busy`.  All six named buttons are present in the toolbar. -/
theorem c7_toolbar_gating (f : DriveStatus.Flags) :
    (∀ b ∈ DriveStatus.tbar, b.text = "Reload" →
        DriveStatus.enabledAt b f = !f.busy)
    ∧ (∀ b ∈ DriveStatus.tbar, b.text ∈ DriveStatus.onlineGatedNames →
        DriveStatus.enabledAt b f = f.online)
    ∧ (f.online = false → ∀ b ∈ DriveStatus.tbar,
        b.text ∈ DriveStatus.onlineGatedNames → DriveStatus.enabledAt b f = false)
    ∧ (∀ nm ∈ DriveStatus.onlineGatedNames, ∃ b ∈ DriveStatus.tbar, b.text = nm) := by
  refine ⟨?_, ?_, ?_, ?_⟩
  · intro b hb ht
    fin_cases hb <;> simp_all [DriveStatus.enabledAt, DriveStatus.onlineGatedNames]
  · intro b hb ht
    fin_cases hb <;> simp_all [DriveStatus.enabledAt, DriveStatus.onlineGatedNames]
  · intro hon b hb ht
    fin_cases hb <;> simp_all [DriveStatus.enabledAt, DriveStatus.onlineGatedNames]
  · intro nm hnm
    fin_cases hnm <;>
      simp [DriveStatus.tbar]

/-- Witness for C7: with online=false and busy=false, the Eject button is
disabled while Reload is enabled. -/
theorem c7_toolbar_gating_witness :
    ∀ b ∈ DriveStatus.tbar, b.text ∈ DriveStatus.onlineGatedNames →
      DriveStatus.enabledAt b { online := false, busy := false } = false :=
  (c7_toolbar_gating { online := false, busy := false }).2.2.1 rfl

/-- Helper: `jsIndexOf` never returns less than -1. -/
theorem jsIndexOf_ge_neg_one (t : String) :
    ∀ l : List String, -1 ≤ jsIndexOf l t := by
  intro l
  induction l with
  | nil => simp [jsIndexOf]
  | cons x xs ih =>
    simp only [jsIndexOf]
    split
    · omega
    · split
      · omega
      · omega

/-- Helper: `jsIndexOf` returns -1 exactly when the target is absent. -/
theorem jsIndexOf_ne_neg_one_iff (t : String) :
    ∀ l : List String, jsIndexOf l t ≠ -1 ↔ t ∈ l := by
  intro l
  induction l with
  | nil => simp [jsIndexOf]
  | cons x xs ih =>
    simp only [jsIndexOf]
    by_cases hx : x = t
    · simp [hx]
    · rw [if_neg hx]
      by_cases hr : jsIndexOf xs t = -1
      · rw [if_pos hr]
        simp only [List.mem_cons]
        constructor
        · intro h; exact absurd rfl h
        · rintro (h | h)
          · exact absurd h.symm hx
          · exact absurd hr ((ih).mpr h)
      · rw [if_neg hr]
        have hge := jsIndexOf_ge_neg_one t xs
        simp only [List.mem_cons]
        constructor
        · intro _
          exact Or.inr (ih.mp hr)
        · intro _
          omega

/-- Helper: the online flag computed by `onLoad` is exactly the membership
of the ONLINE token in the whitespace-split status field. -/
theorem onLoad_online_iff (status : Option String) (p : DriveStatus.PanelData) :
    (DriveStatus.onLoad status p).vm.online = true
      ↔ "ONLINE" ∈ jsSplitWs (status.getD "") := by
  have hval : (DriveStatus.onLoad status p).vm.online
      = (jsIndexOf (jsSplitWs (status.getD "")) "ONLINE" != -1) := by
    simp only [DriveStatus.onLoad]
    split <;> rfl
  rw [hval, bne_iff_ne]
  exact jsIndexOf_ne_neg_one_iff "ONLINE" (jsSplitWs (status.getD ""))

/-- C3: on every status-detail load event, `online` is set to true iff the
literal token ONLINE appears in the status field split on whitespace; in
particular "ONLINE READY" yields online=true and "OFFLINE" yields
online=false. -/
theorem c3_online_token (status : Option String) (p : DriveStatus.PanelData) :
    ((DriveStatus.onLoad status p).vm.online = true
        ↔ "ONLINE" ∈ jsSplitWs (status.getD ""))
    ∧ (DriveStatus.onLoad (Option.some "ONLINE READY") p).vm.online = true
    ∧ (DriveStatus.onLoad (Option.some "OFFLINE") p).vm.online = false := by
  refine ⟨onLoad_online_iff status p, ?_, ?_⟩
  · exact (onLoad_online_iff (Option.some "ONLINE READY") p).mpr (by decide)
  · have h := onLoad_online_iff (Option.some "OFFLINE") p
    cases hb : (DriveStatus.onLoad (Option.some "OFFLINE") p).vm.online with
    | false => rfl
    | true => exact absurd (h.mp hb) (by decide)

/-- C8: on every status-detail load event whose computed online flag is
false, the cartridge sub-listing store is cleared to empty by that same
event. -/
theorem c8_offline_clears_cartridges (status : Option String)
    (p : DriveStatus.PanelData)
    (h : (DriveStatus.onLoad status p).vm.online = false) :
    (DriveStatus.onLoad status p).cartridgegrid.items = [] := by
  cases hon : jsIndexOf (jsSplitWs (status.getD "")) "ONLINE" != -1 with
  | false =>
    simp [DriveStatus.onLoad, hon, DriveStatus.CartridgeStore.removeAll]
  | true =>
    exfalso
    simp [DriveStatus.onLoad, hon] at h

/-- Witness for C8: a panel with a non-empty cartridge listing receiving an
OFFLINE status ends with online=false and an empty listing. -/
theorem c8_offline_clears_cartridges_witness :
    (DriveStatus.onLoad (Option.some "OFFLINE")
        { vm := { online := true, busy := false, loaded := true },
          cartridgegrid := { items := ["CART1", "CART2"] } }).cartridgegrid.items
      = [] :=
  c8_offline_clears_cartridges (Option.some "OFFLINE")
    { vm := { online := true, busy := false, loaded := true },
      cartridgegrid := { items := ["CART1", "CART2"] } } (by decide)

/-- Counterexample for C1: a snapshot that does not contain the panel drive
makes `onStateLoad` throw (the null record's data is dereferenced); it does
not fail soft to busy=false, online=false as claimed. -/
theorem c1_counterexample :
    DriveStatus.onStateLoad "drv0"
        [{ name := "changer0", state := Option.none }] DriveStatus.initialVM
      = Except.error "TypeError: driveRecord is null" := rfl

/-- C1 (amended): whenever the panel drive is not found in the device-list
snapshot, `onStateLoad` throws a TypeError into the event loop (the view
model, in particular busy and online, is not updated). -/
theorem c1_missing_identity_throws (drive : String) (store : Snapshot)
    (vm : DriveStatus.VMState) (h : findRecord store drive = Option.none) :
    DriveStatus.onStateLoad drive store vm
      = Except.error "TypeError: driveRecord is null" := by
  simp [DriveStatus.onStateLoad, h]

/-- Witness for the amended C1: the empty snapshot makes the handler
throw. -/
theorem c1_missing_identity_throws_witness :
    DriveStatus.onStateLoad "drv0" [] DriveStatus.initialVM
      = Except.error "TypeError: driveRecord is null" :=
  c1_missing_identity_throws "drv0" [] DriveStatus.initialVM rfl

/-- Helper: when the drive is present, `onStateLoad` succeeds and the
resulting busy flag is the JS truthiness of the record state. -/
theorem onStateLoad_present_busy (drive : String) (store : Snapshot)
    (vm : DriveStatus.VMState) (r : DeviceRecord)
    (h : findRecord store drive = Option.some r) :
    ∃ vmOut effs, DriveStatus.onStateLoad drive store vm = Except.ok (vmOut, effs)
      ∧ vmOut.busy = jsTruthy r.state := by
  simp only [DriveStatus.onStateLoad, h]
  split
  · split
    · exact ⟨_, _, rfl, rfl⟩
    · exact ⟨_, _, rfl, rfl⟩
  · exact ⟨_, _, rfl, rfl⟩

/-- C2: for every snapshot in which the panel drive is present — whatever
the current view-model state, in particular also after the loaded latch is
set — the handler succeeds and sets busy to true iff the record state field
is non-null and non-empty. -/
theorem c2_busy_recomputed (drive : String) (store : Snapshot)
    (vm : DriveStatus.VMState) (r : DeviceRecord)
    (h : findRecord store drive = Option.some r) :
    ∃ vmOut effs, DriveStatus.onStateLoad drive store vm = Except.ok (vmOut, effs)
      ∧ vmOut.busy = jsTruthy r.state
      ∧ (vmOut.busy = true ↔ ∃ s, r.state = Option.some s ∧ s ≠ "") := by
  obtain ⟨vmOut, effs, he, hb⟩ := onStateLoad_present_busy drive store vm r h
  refine ⟨vmOut, effs, he, hb, ?_⟩
  rw [hb]
  exact jsTruthy_eq_true_iff r.state

/-- Witness for C2: a post-latch view model still has busy recomputed from
a snapshot whose record carries a task identifier. -/
theorem c2_busy_recomputed_witness :
    ∃ vmOut effs,
      DriveStatus.onStateLoad "drv0"
          [{ name := "drv0", state := Option.some "UPID:1" }]
          { online := true, busy := false, loaded := true }
        = Except.ok (vmOut, effs)
      ∧ vmOut.busy = jsTruthy (Option.some "UPID:1")
      ∧ (vmOut.busy = true ↔ ∃ s, Option.some "UPID:1" = Option.some s ∧ s ≠ "") :=
  c2_busy_recomputed "drv0" [{ name := "drv0", state := Option.some "UPID:1" }]
    { online := true, busy := false, loaded := true }
    { name := "drv0", state := Option.some "UPID:1" } (by decide)

/-- Counterexample for C5: a panel that has reached IDLE (loaded latch
set) receives a snapshot with the drive state set again; the handler sets
busy but emits NO effects at all — in particular it does not re-mask the
status detail region as the claim states. -/
theorem c5_counterexample :
    DriveStatus.onStateLoad "drv0"
        [{ name := "drv0", state := Option.some "UPID:2" }]
        { online := true, busy := false, loaded := true }
      = Except.ok ({ online := true, busy := true, loaded := true },
          ([] : List DriveStatus.UIEffect)) := rfl

/-- C5 (amended): after the loaded latch is set, a snapshot with the drive
state set again recomputes busy=true (re-disabling the busy-gated Reload
button through the flag), but performs no re-masking, does not reset the
loaded latch and triggers no automatic reload (no effects at all). -/
theorem c5_after_latch_busy_no_remask (drive : String) (store : Snapshot)
    (vm : DriveStatus.VMState) (r : DeviceRecord)
    (hl : vm.loaded = true) (h : findRecord store drive = Option.some r)
    (hb : jsTruthy r.state = true) :
    DriveStatus.onStateLoad drive store vm
      = Except.ok ({ vm with busy := true }, []) := by
  simp [DriveStatus.onStateLoad, h, hl, hb]

/-- Witness for the amended C5: concrete post-latch busy snapshot. -/
theorem c5_after_latch_busy_no_remask_witness :
    DriveStatus.onStateLoad "drv1"
        [{ name := "drv1", state := Option.some "UPID:3" }]
        { online := false, busy := false, loaded := true }
      = Except.ok ({ online := false, busy := true, loaded := true }, []) :=
  c5_after_latch_busy_no_remask "drv1"
    [{ name := "drv1", state := Option.some "UPID:3" }]
    { online := false, busy := false, loaded := true }
    { name := "drv1", state := Option.some "UPID:3" } rfl (by decide) (by decide)

/-- Helper: a view model with the loaded latch set is absorbing: every
further event (with the drive present) produces no effects at all and keeps
the latch set. -/
theorem processEvents_loaded (drive : String) :
    ∀ (evs : List Snapshot) (vm : DriveStatus.VMState), vm.loaded = true →
      (∀ ev ∈ evs, (findRecord ev drive).isSome = true) →
      ∃ vmF effsList,
        DriveStatus.processEvents drive vm evs = Except.ok (vmF, effsList)
        ∧ effsList.map DriveStatus.firedReload = evs.map (fun _ => false)
        ∧ vmF.loaded = true := by
  intro evs
  induction evs with
  | nil => intro vm hl _; exact ⟨vm, [], rfl, rfl, hl⟩
  | cons ev evs ih =>
    intro vm hl hpres
    obtain ⟨r, hr⟩ := Option.isSome_iff_exists.mp (hpres ev (List.mem_cons_self ev evs))
    have hstep : DriveStatus.onStateLoad drive ev vm
        = Except.ok ({ vm with busy := jsTruthy r.state }, []) := by
      simp [DriveStatus.onStateLoad, hr, hl]
    obtain ⟨vmF, effsList, hrun, hmap, hload⟩ :=
      ih { vm with busy := jsTruthy r.state } hl
        (fun e he => hpres e (List.mem_cons_of_mem _ he))
    refine ⟨vmF, [] :: effsList, ?_, ?_, hload⟩
    · simp [DriveStatus.processEvents, hstep, hrun]
    · simp [DriveStatus.firedReload, hmap]

/-- Helper: starting from an unset latch, the per-event reload firings are
exactly the first-idle marks, and the final latch value records whether an
idle event occurred. -/
theorem processEvents_marks (drive : String) :
    ∀ (evs : List Snapshot) (vm : DriveStatus.VMState), vm.loaded = false →
      (∀ ev ∈ evs, (findRecord ev drive).isSome = true) →
      ∃ vmF effsList,
        DriveStatus.processEvents drive vm evs = Except.ok (vmF, effsList)
        ∧ effsList.map DriveStatus.firedReload = DriveStatus.specFirstIdleMarks drive evs
        ∧ vmF.loaded = evs.any (DriveStatus.eventIdle drive) := by
  intro evs
  induction evs with
  | nil => intro vm hl _; exact ⟨vm, [], rfl, rfl, by simpa using hl⟩
  | cons ev evs ih =>
    intro vm hl hpres
    obtain ⟨r, hr⟩ := Option.isSome_iff_exists.mp (hpres ev (List.mem_cons_self ev evs))
    have hbusyEv : DriveStatus.eventBusy drive ev = jsTruthy r.state := by
      simp [DriveStatus.eventBusy, hr]
    cases hb : jsTruthy r.state with
    | true =>
      have hstep : DriveStatus.onStateLoad drive ev vm
          = Except.ok ({ vm with busy := true }, [DriveStatus.UIEffect.maskGrid]) := by
        simp [DriveStatus.onStateLoad, hr, hl, hb]
      obtain ⟨vmF, effsList, hrun, hmap, hload⟩ :=
        ih { vm with busy := true } hl (fun e he => hpres e (List.mem_cons_of_mem _ he))
      refine ⟨vmF, [DriveStatus.UIEffect.maskGrid] :: effsList, ?_, ?_, ?_⟩
      · simp [DriveStatus.processEvents, hstep, hrun]
      · simp [DriveStatus.firedReload, hmap, DriveStatus.specFirstIdleMarks, hbusyEv, hb]
      · simp [hload, DriveStatus.eventIdle, hbusyEv, hb]
    | false =>
      have hstep : DriveStatus.onStateLoad drive ev vm
          = Except.ok ({ vm with busy := false, loaded := true },
              [DriveStatus.UIEffect.unmaskGrid, DriveStatus.UIEffect.reloadStatusGrid]) := by
        simp [DriveStatus.onStateLoad, hr, hl, hb]
      obtain ⟨vmF, effsList, hrun, hmap, hload⟩ :=
        processEvents_loaded drive evs { vm with busy := false, loaded := true } rfl
          (fun e he => hpres e (List.mem_cons_of_mem _ he))
      refine ⟨vmF,
        [DriveStatus.UIEffect.unmaskGrid, DriveStatus.UIEffect.reloadStatusGrid] :: effsList,
        ?_, ?_, ?_⟩
      · simp [DriveStatus.processEvents, hstep, hrun]
      · simp [DriveStatus.firedReload, hmap, DriveStatus.specFirstIdleMarks, hbusyEv, hb]
      · simp [hload, DriveStatus.eventIdle, hbusyEv, hb]

/-- Helper: a constantly-false boolean list contains no true entry. -/
theorem map_const_false_count {α : Type} (l : List α) :
    ((l.map fun _ => false).count true) = 0 := by
  induction l with
  | nil => rfl
  | cons x xs ih => simpa [List.count_cons] using ih

/-- Helper: a constantly-false replicated list contains no true entry. -/
theorem count_true_replicate_false (n : Nat) :
    (List.replicate n false).count true = 0 := by
  induction n with
  | zero => rfl
  | succ n ih => simp [List.replicate, List.count_cons, ih]

/-- Helper: the first-idle marks carry exactly one true entry when the
sequence contains an idle event, and none otherwise. -/
theorem specFirstIdleMarks_count (drive : String) :
    ∀ evs : List Snapshot,
      (DriveStatus.specFirstIdleMarks drive evs).count true
        = if evs.any (DriveStatus.eventIdle drive) then 1 else 0 := by
  intro evs
  induction evs with
  | nil => rfl
  | cons ev evs ih =>
    cases hb : DriveStatus.eventBusy drive ev with
    | true =>
      simp [DriveStatus.specFirstIdleMarks, hb, DriveStatus.eventIdle,
        List.count_cons, ih]
    | false =>
      simp [DriveStatus.specFirstIdleMarks, hb, DriveStatus.eventIdle,
        List.count_cons, map_const_false_count, count_true_replicate_false]

/-- C4: over any snapshot sequence observed from an unset latch (with the
drive present in each snapshot), the automatic unmask-and-reload fires
exactly at the first event whose derived busy flag is false — so exactly
once when an idle event occurs and never otherwise — and after any prefix
of the sequence the loaded latch is set iff the prefix contains an idle
event (so it transitions false to true only at that first idle event). -/
theorem c4_reload_once_at_first_idle (drive : String) (vm : DriveStatus.VMState)
    (evs : List Snapshot) (hl : vm.loaded = false)
    (hpres : ∀ ev ∈ evs, (findRecord ev drive).isSome = true) :
    ∃ vmF effsList,
      DriveStatus.processEvents drive vm evs = Except.ok (vmF, effsList)
      ∧ effsList.map DriveStatus.firedReload = DriveStatus.specFirstIdleMarks drive evs
      ∧ (effsList.map DriveStatus.firedReload).count true
          = (if evs.any (DriveStatus.eventIdle drive) then 1 else 0)
      ∧ vmF.loaded = evs.any (DriveStatus.eventIdle drive)
      ∧ (∀ n, ∃ vmN effsN,
          DriveStatus.processEvents drive vm (evs.take n) = Except.ok (vmN, effsN)
          ∧ vmN.loaded = (evs.take n).any (DriveStatus.eventIdle drive)) := by
  obtain ⟨vmF, effsList, hrun, hmap, hload⟩ := processEvents_marks drive evs vm hl hpres
  refine ⟨vmF, effsList, hrun, hmap, ?_, hload, ?_⟩
  · rw [hmap, specFirstIdleMarks_count]
  · intro n
    obtain ⟨vmN, effsN, hrunN, _, hloadN⟩ :=
      processEvents_marks drive (evs.take n) vm hl
        (fun e he => hpres e (List.take_subset n evs he))
    exact ⟨vmN, effsN, hrunN, hloadN⟩

/-- Witness for C4: on the sequence busy, busy, idle, busy, idle from the
initial view model, the reload fires exactly once, at the first idle. -/
theorem c4_reload_once_at_first_idle_witness :
    ∃ vmF effsList,
      DriveStatus.processEvents "drv0" DriveStatus.initialVM
          DriveStatus.exampleBusyIdleEvents = Except.ok (vmF, effsList)
      ∧ effsList.map DriveStatus.firedReload
          = DriveStatus.specFirstIdleMarks "drv0" DriveStatus.exampleBusyIdleEvents
      ∧ (effsList.map DriveStatus.firedReload).count true
          = (if DriveStatus.exampleBusyIdleEvents.any
              (DriveStatus.eventIdle "drv0") then 1 else 0)
      ∧ vmF.loaded = DriveStatus.exampleBusyIdleEvents.any (DriveStatus.eventIdle "drv0")
      ∧ (∀ n, ∃ vmN effsN,
          DriveStatus.processEvents "drv0" DriveStatus.initialVM
              (DriveStatus.exampleBusyIdleEvents.take n) = Except.ok (vmN, effsN)
          ∧ vmN.loaded = (DriveStatus.exampleBusyIdleEvents.take n).any
              (DriveStatus.eventIdle "drv0")) :=
  c4_reload_once_at_first_idle "drv0" DriveStatus.initialVM
    DriveStatus.exampleBusyIdleEvents rfl (by decide)

/-- C6: a read-label invocation never creates a task handle and never
triggers a reload; a successful eject-media invocation creates exactly one
TaskProgress handle on the returned task identifier, and each completion
event of that task triggers exactly one status reload. -/
theorem c6_command_task_shapes :
    (∀ result, ∀ e ∈ DriveStatus.readLabel result,
        DriveStatus.CommandEffect.createsTask e = false
          ∧ DriveStatus.CommandEffect.reloadsPerCompletion e = 0)
    ∧ (∀ resp : DriveStatus.CommandResponse,
        DriveStatus.ejectMedia (Option.some resp)
          = [DriveStatus.CommandEffect.createTaskProgress resp.data
              [DriveStatus.TaskAction.reloadStatusGrid]]
        ∧ ∀ e ∈ DriveStatus.ejectMedia (Option.some resp),
            DriveStatus.CommandEffect.createsTask e = true
              ∧ DriveStatus.CommandEffect.reloadsPerCompletion e = 1) := by
  constructor
  · intro result e he
    cases result with
    | none => simp [DriveStatus.readLabel, DriveStatus.driveCommand] at he
    | some resp =>
      simp [DriveStatus.readLabel, DriveStatus.driveCommand] at he
      subst he
      exact ⟨rfl, rfl⟩
  · intro resp
    refine ⟨rfl, ?_⟩
    intro e he
    simp [DriveStatus.ejectMedia, DriveStatus.driveCommand] at he
    subst he
    exact ⟨rfl, rfl⟩

/-- Witness for C6: a concrete read-label response yields a task-free
window effect; a concrete eject-media response yields one supervised task
whose completion reloads once. -/
theorem c6_command_task_shapes_witness :
    (DriveStatus.CommandEffect.createsTask
        (DriveStatus.CommandEffect.showWindow "MediaLabelWindow") = false
      ∧ DriveStatus.CommandEffect.reloadsPerCompletion
          (DriveStatus.CommandEffect.showWindow "MediaLabelWindow") = 0)
    ∧ DriveStatus.ejectMedia (Option.some { data := "UPID:9" })
        = [DriveStatus.CommandEffect.createTaskProgress "UPID:9"
            [DriveStatus.TaskAction.reloadStatusGrid]] :=
  ⟨c6_command_task_shapes.1 (Option.some { data := "label-payload" })
      (DriveStatus.CommandEffect.showWindow "MediaLabelWindow") (by decide),
   (c6_command_task_shapes.2 { data := "UPID:9" }).1⟩
